import Mathlib

/-!
Shallow embedding of the `whatsapp-agent` repository: a webhook handler that
receives an inbound WhatsApp message, calls a completion provider, and relays
the reply through a messaging provider (Twilio).

Two near-duplicate variants exist in the source:

* `formPOST` embeds `src/unnamed/part_000`: parses form data, validates with a
  zod schema (`Body` non-empty, `From` starting with `"whatsapp:"`), keeps a
  per-sender conversation context in an in-memory map, windows the completion
  request to the last 6 messages, recovers from completion failures with a
  fixed fallback string, replies to the inbound sender, and on a post-
  validation error returns 500 after attempting one apology send to the fixed
  number `"whatsapp:+1234567890"`.

* `jsonPOST` embeds `src/src/app/api/whatsapp/route.ts`: parses JSON, checks
  only truthiness of `Body` and `From`, keeps no context, sends the whole
  request through one completion call, and delivers the reply to the hardcoded
  number `"whatsapp:+923020012190"`; any exception after validation (including
  a completion-provider throw) falls to the catch-all and yields 500.

External collaborators (completion provider, messaging provider) are modelled
by an environment `Env` recording the outcome of each outbound call; the
handlers are total functions returning the HTTP response, the list of
completion calls made, the list of messaging sends attempted, and the updated
context store.  Totality of the handler functions models the source's
catch-all: no exception propagates past the handler boundary.
-/

/-- Message roles, from the `ConversationContext` interface in
`src/unnamed/part_000`. -/
inductive Role where
  | system
  | user
  | assistant
deriving DecidableEq

/-- A `{role, content}` pair. -/
structure Message where
  role : Role
  content : String
deriving DecidableEq

/-- `ConversationContext` from `src/unnamed/part_000` (the `Date` timestamp is
modelled as a `Nat`). -/
structure ConversationContext where
  id : String
  messages : List Message
  createdAt : Nat
deriving DecidableEq

/-- The in-memory `contextStore : Map<string, ConversationContext>`,
modelled as an association list. -/
abbrev ContextStore := List (String × ConversationContext)

/-- `contextStore.get(key)`. -/
def ContextStore.get : ContextStore → String → Option ConversationContext
  | [], _ => none
  | e :: rest, k => if e.1 = k then some e.2 else ContextStore.get rest k

/-- `contextStore.set(key, ctx)`: replaces the entry for `key` or appends a
new one, as a JS `Map` does. -/
def ContextStore.set : ContextStore → String → ConversationContext → ContextStore
  | [], k, c => [(k, c)]
  | e :: rest, k, c => if e.1 = k then (k, c) :: rest else e :: ContextStore.set rest k c

/-- The inbound payload, fields `Body` and `From` (`none` = field absent). -/
structure Payload where
  Body : Option String
  From : Option String
deriving DecidableEq

/-- Outcome of the single completion-provider call: the call returned with
`choices[0]?.message?.content` (`none` for an absent content) or it threw. -/
inductive CompletionResult where
  | ok (content : Option String)
  | thrown
deriving DecidableEq

/-- Environment for one request: outcome of the completion call, whether each
messaging send succeeds (`false` = the SDK call throws), the configured
`TWILIO_PHONE_NUMBER`, and the current time used for `createdAt`. -/
structure Env where
  completion : CompletionResult
  primarySend : Bool
  apologySend : Bool
  twilioPhone : String
  now : Nat
deriving DecidableEq

/-- One `twilioClient.messages.create({from, body, to})` invocation. -/
structure TwilioCall where
  from_ : String
  body : String
  to_ : String
deriving DecidableEq

/-- The HTTP response: status code, and whether the JSON body carries
`success: true`. -/
structure HttpResponse where
  status : Nat
  success : Bool
deriving DecidableEq

/-- Observable result of one handler run: the response, every message list
sent to the completion provider, every messaging send attempted (in order,
throwing ones included), and the context store afterwards. -/
structure PostResult where
  response : HttpResponse
  completionCalls : List (List Message)
  sends : List TwilioCall
  store : ContextStore
deriving DecidableEq

/-- The system message seeded into a fresh context. -/
def systemMessage : Message :=
  ⟨Role.system,
   "You are a helpful WhatsApp assistant. Provide concise and helpful responses."⟩

/-- A context freshly created for key `k` at time `t`. -/
def freshContext (k : String) (t : Nat) : ConversationContext :=
  { id := k, messages := [systemMessage], createdAt := t }

/-- `contextStore.get(conversationId) || { ...fresh... }`. -/
def contextBase (store : ContextStore) (k : String) (t : Nat) : ConversationContext :=
  (ContextStore.get store k).getD (freshContext k t)

/-- Output of `WhatsAppMessageSchema.parse`. -/
structure ValidatedData where
  Body : String
  From : String
deriving DecidableEq

/-- `z.string().startsWith(pre)` on `s`: the characters of `pre` are a prefix
of the characters of `s`. -/
def strStartsWith (s pre : String) : Bool := pre.data.isPrefixOf s.data

/-- `WhatsAppMessageSchema.parse`: `Body` a string of length ≥ 1, `From` a
string starting with `"whatsapp:"`; `none` models the thrown `ZodError`. -/
def zodParse (p : Payload) : Option ValidatedData :=
  match p.Body, p.From with
  | some b, some f =>
      if 1 ≤ b.length ∧ strStartsWith f "whatsapp:" = true then some ⟨b, f⟩ else none
  | _, _ => none

/-- JavaScript `s || d` on strings: the empty string is falsy. -/
def jsOr (s d : String) : String := if s = "" then d else s

/-- `context.messages.slice(-6)`: the last at-most-`n` elements. -/
def takeLast (n : Nat) (l : List α) : List α := l.drop (l.length - n)

/-- Fallback when the completion provider returns no content
(`'I could not generate a response.'`). -/
def noContentFallback : String := "I could not generate a response."

/-- Fallback returned by `generateAIResponse` when the completion call throws
(`'Sorry, I am unable to generate a response right now.'`). -/
def errorFallback : String := "Sorry, I am unable to generate a response right now."

/-- The reply text produced by `generateAIResponse` for a given completion
outcome: the provider's content, the no-content fallback on an absent or empty
content, or the error fallback when the call throws (the `try/catch` inside
`generateAIResponse` absorbs the failure). -/
def aiReply : CompletionResult → String
  | .ok content => jsOr (content.getD "") noContentFallback
  | .thrown => errorFallback

/-- The apology send attempted in the catch block of `src/unnamed/part_000`:
fixed body, fixed destination `'whatsapp:+1234567890'`. -/
def apologyCall (env : Env) : TwilioCall :=
  ⟨"whatsapp:" ++ env.twilioPhone,
   "Sorry, I encountered an error processing your request.",
   "whatsapp:+1234567890"⟩

/-- The `POST` handler of `src/unnamed/part_000` (form-encoded,
context-tracking variant).  Validation failure returns 400 before any
provider call; otherwise the context is fetched or created, the user message
appended, the completion provider called on the last 6 messages, the
assistant message appended, the store updated, and the reply sent to the
inbound sender.  A primary-send throw falls to the catch block: one apology
send is attempted (its own failure is swallowed) and 500 is returned; the
store update has already happened at that point. -/
def formPOST (store : ContextStore) (p : Payload) (env : Env) : PostResult :=
  match zodParse p with
  | none =>
      { response := ⟨400, false⟩, completionCalls := [], sends := [], store := store }
  | some v =>
      let context := contextBase store v.From env.now
      let ctx1 := { context with messages := context.messages ++ [Message.mk Role.user v.Body] }
      let recent := takeLast 6 ctx1.messages
      let ai := aiReply env.completion
      let ctx2 := { ctx1 with messages := ctx1.messages ++ [Message.mk Role.assistant ai] }
      let store' := ContextStore.set store v.From ctx2
      let primary : TwilioCall := ⟨"whatsapp:" ++ env.twilioPhone, ai, v.From⟩
      if env.primarySend then
        { response := ⟨200, true⟩, completionCalls := [recent],
          sends := [primary], store := store' }
      else
        { response := ⟨500, false⟩, completionCalls := [recent],
          sends := [primary, apologyCall env], store := store' }

/-- The `POST` handler of `src/src/app/api/whatsapp/route.ts` (JSON variant,
no context tracking).  `!Body || !From` returns 400; the completion call uses
the single user message; a completion throw reaches the catch-all and yields
500 with no send; the reply is delivered to the hardcoded number
`'whatsapp:+923020012190'`; a send throw yields 500.  No apology send exists
in this variant, and no context store is kept (the `store` field is `[]`). -/
def jsonPOST (p : Payload) (env : Env) : PostResult :=
  match p.Body, p.From with
  | some b, some f =>
      if b = "" ∨ f = "" then
        { response := ⟨400, false⟩, completionCalls := [], sends := [], store := [] }
      else
        match env.completion with
        | .thrown =>
            { response := ⟨500, false⟩, completionCalls := [[⟨Role.user, b⟩]],
              sends := [], store := [] }
        | .ok content =>
            let reply := jsOr (content.getD "") "I'm here to help!"
            let call : TwilioCall :=
              ⟨"whatsapp:" ++ env.twilioPhone, reply, "whatsapp:+923020012190"⟩
            { response := ⟨if env.primarySend then 200 else 500, env.primarySend⟩,
              completionCalls := [[⟨Role.user, b⟩]], sends := [call], store := [] }
  | _, _ =>
      { response := ⟨400, false⟩, completionCalls := [], sends := [], store := [] }

/-- A default environment used by concrete witnesses: completion succeeds
with content `"Hi there!"`, both sends succeed. -/
def env0 : Env :=
  { completion := .ok (some "Hi there!"), primarySend := true, apologySend := true,
    twilioPhone := "+14155238886", now := 0 }

/-- Environment whose primary (and apology) messaging sends throw. -/
def envFail : Env :=
  { completion := .ok (some "Hi there!"), primarySend := false, apologySend := false,
    twilioPhone := "+14155238886", now := 0 }

/-- A message is a system entry. -/
def isSystem (m : Message) : Bool :=
  match m.role with
  | Role.system => true
  | _ => false

/-- The context-store invariant of §3 of the spec: every stored context's
message list starts with the system message and contains exactly one system
entry. -/
def storeInv (s : ContextStore) : Prop :=
  ∀ e ∈ s, e.2.messages.head? = some systemMessage ∧
    (e.2.messages.filter isSystem).length = 1

instance (s : ContextStore) : Decidable (storeInv s) := by
  unfold storeInv; infer_instance

/- Helper lemmas about the association-list store. -/

theorem ContextStore.get_set_self (s : ContextStore) (k : String)
    (c : ConversationContext) :
    ContextStore.get (ContextStore.set s k c) k = some c := by
  induction s with
  | nil => simp [ContextStore.get, ContextStore.set]
  | cons e rest ih =>
    by_cases h : e.1 = k
    · simp [ContextStore.set, h, ContextStore.get]
    · simp [ContextStore.set, h, ContextStore.get, ih]

theorem ContextStore.get_set_ne (s : ContextStore) (k k' : String)
    (c : ConversationContext) (h : k' ≠ k) :
    ContextStore.get (ContextStore.set s k c) k' = ContextStore.get s k' := by
  induction s with
  | nil => simp [ContextStore.get, ContextStore.set, Ne.symm h]
  | cons e rest ih =>
    by_cases he : e.1 = k
    · have h1 : k ≠ k' := Ne.symm h
      have h2 : e.1 ≠ k' := by rw [he]; exact h1
      simp only [ContextStore.set, if_pos he, ContextStore.get, if_neg h1, if_neg h2]
    · simp only [ContextStore.set, if_neg he, ContextStore.get]
      rw [ih]

theorem ContextStore.get_mem_inv {s : ContextStore} {k : String}
    {c : ConversationContext} (hinv : storeInv s)
    (hget : ContextStore.get s k = some c) :
    c.messages.head? = some systemMessage ∧
      (c.messages.filter isSystem).length = 1 := by
  induction s with
  | nil => simp [ContextStore.get] at hget
  | cons e rest ih =>
    simp only [ContextStore.get] at hget
    by_cases he : e.1 = k
    · rw [if_pos he] at hget
      cases hget
      exact hinv e (List.mem_cons_self e rest)
    · rw [if_neg he] at hget
      exact ih (fun x hx => hinv x (List.mem_cons_of_mem e hx)) hget

theorem ContextStore.set_inv {s : ContextStore} {k : String}
    {c : ConversationContext} (hinv : storeInv s)
    (hc : c.messages.head? = some systemMessage ∧
      (c.messages.filter isSystem).length = 1) :
    storeInv (ContextStore.set s k c) := by
  induction s with
  | nil =>
    intro e he
    simp [ContextStore.set] at he
    subst he
    exact hc
  | cons e rest ih =>
    intro x hx
    by_cases he : e.1 = k
    · rw [ContextStore.set, if_pos he] at hx
      rcases List.mem_cons.mp hx with h | h
      · subst h; exact hc
      · exact hinv x (List.mem_cons_of_mem e h)
    · rw [ContextStore.set, if_neg he] at hx
      rcases List.mem_cons.mp hx with h | h
      · subst h; exact hinv x (List.mem_cons_self x rest)
      · exact ih (fun y hy => hinv y (List.mem_cons_of_mem e hy)) x h

/- Helper lemmas about the `slice(-6)` window. -/

theorem takeLast_length_le (n : Nat) (l : List α) : (takeLast n l).length ≤ n := by
  simp only [takeLast, List.length_drop]
  omega

theorem takeLast_concat (n : Nat) (hn : 0 < n) (l : List α) (x : α) :
    takeLast n (l ++ [x]) = takeLast (n - 1) l ++ [x] := by
  simp only [takeLast, List.length_append, List.length_singleton]
  rw [List.drop_append_of_le_length (by omega)]
  congr 2
  omega

theorem takeLast_concat_getLast (n : Nat) (hn : 0 < n) (l : List α) (x : α) :
    (takeLast n (l ++ [x])).getLast? = some x := by
  rw [takeLast_concat n hn l x, List.getLast?_concat]

/-- Environment whose completion call throws; sends succeed. -/
def envThrown : Env :=
  { completion := .thrown, primarySend := true, apologySend := true,
    twilioPhone := "+14155238886", now := 0 }

/-- C1: on the payload `{Body: "Hello", From: "whatsapp:+100"}` with the
completion provider returning `"Hi there!"`, the context-tracking handler
(`formPOST`) makes exactly one messaging call with destination
`"whatsapp:+100"` (the inbound sender) and body `"Hi there!"` and returns
200 with `success: true` — but the JSON handler (`jsonPOST`,
`src/src/app/api/whatsapp/route.ts`) sends the same reply to the hardcoded
number `"whatsapp:+923020012190"` instead of the inbound sender, against the
spec's requirement that the destination always be derived from the sender. -/
theorem c1_destination_evaluation :
    (formPOST [] ⟨some "Hello", some "whatsapp:+100"⟩ env0).sends
        = [⟨"whatsapp:+14155238886", "Hi there!", "whatsapp:+100"⟩] ∧
    (formPOST [] ⟨some "Hello", some "whatsapp:+100"⟩ env0).response
        = ⟨200, true⟩ ∧
    (jsonPOST ⟨some "Hello", some "whatsapp:+100"⟩ env0).sends.map (·.to_)
        = ["whatsapp:+923020012190"] ∧
    (jsonPOST ⟨some "Hello", some "whatsapp:+100"⟩ env0).sends.map (·.body)
        = ["Hi there!"] ∧
    (jsonPOST ⟨some "Hello", some "whatsapp:+100"⟩ env0).response
        = ⟨200, true⟩ := by
  decide

/-- C2: for every validated request whose primary messaging send throws, the
context-tracking handler returns 500 and its send attempts are exactly the
primary send followed by one apology send; `env.apologySend` is
unconstrained, so the conclusion holds in particular when the apology send
also throws, and totality of `formPOST` models that no exception escapes the
handler. -/
theorem c2_primary_send_failure (store : ContextStore) (p : Payload) (env : Env)
    (v : ValidatedData) (hv : zodParse p = some v)
    (hfail : env.primarySend = false) :
    (formPOST store p env).response.status = 500 ∧
    (formPOST store p env).sends =
      [⟨"whatsapp:" ++ env.twilioPhone, aiReply env.completion, v.From⟩,
       apologyCall env] := by
  simp [formPOST, hv, hfail]

theorem c2_primary_send_failure_witness :
    (formPOST [] ⟨some "Hello", some "whatsapp:+100"⟩ envFail).response.status = 500 ∧
    (formPOST [] ⟨some "Hello", some "whatsapp:+100"⟩ envFail).sends =
      [⟨"whatsapp:" ++ envFail.twilioPhone, aiReply envFail.completion, "whatsapp:+100"⟩,
       apologyCall envFail] :=
  c2_primary_send_failure [] ⟨some "Hello", some "whatsapp:+100"⟩ envFail
    ⟨"Hello", "whatsapp:+100"⟩ (by decide) rfl

/-- C3 counterexample: in the JSON variant (`src/src/app/api/whatsapp/route.ts`),
a completion-provider throw on the valid payload
`{Body: "Hello", From: "whatsapp:+100"}` does NOT yield a 200 response with
one delivery: the throw reaches the catch-all, the handler returns 500, and
no messaging call is made. -/
theorem c3_counterexample :
    ¬ ((jsonPOST ⟨some "Hello", some "whatsapp:+100"⟩ envThrown).response.status = 200 ∧
       (jsonPOST ⟨some "Hello", some "whatsapp:+100"⟩ envThrown).sends.length = 1) := by
  decide

/-- C3 (amended): in the context-tracking variant (`src/unnamed/part_000`),
for every validated request whose completion call throws and whose messaging
send succeeds, the handler still returns 200 and the single delivered message
carries exactly the fixed fallback string
`'Sorry, I am unable to generate a response right now.'`. -/
theorem c3_completion_failure_fallback (store : ContextStore) (p : Payload)
    (env : Env) (v : ValidatedData) (hv : zodParse p = some v)
    (hc : env.completion = CompletionResult.thrown)
    (hsend : env.primarySend = true) :
    (formPOST store p env).response.status = 200 ∧
    (formPOST store p env).sends =
      [⟨"whatsapp:" ++ env.twilioPhone, errorFallback, v.From⟩] := by
  simp [formPOST, hv, hc, hsend, aiReply]

theorem c3_completion_failure_fallback_witness :
    (formPOST [] ⟨some "Hello", some "whatsapp:+100"⟩ envThrown).response.status = 200 ∧
    (formPOST [] ⟨some "Hello", some "whatsapp:+100"⟩ envThrown).sends =
      [⟨"whatsapp:" ++ envThrown.twilioPhone, errorFallback, "whatsapp:+100"⟩] :=
  c3_completion_failure_fallback [] ⟨some "Hello", some "whatsapp:+100"⟩ envThrown
    ⟨"Hello", "whatsapp:+100"⟩ (by decide) rfl rfl

/-- C4: a payload with a missing or empty `Body` yields 400 from both handler
variants with zero completion calls and zero messaging sends (in particular no
apology send, since the `ZodError` branch returns before the apology block);
and a payload whose `From` lacks the `whatsapp:` prefix yields 400 with zero
upstream calls from the gateway-prefixed (context-tracking) variant. -/
theorem c4_validation_failure (store : ContextStore) (p : Payload) (env : Env) :
    ((p.Body = none ∨ p.Body = some "") →
      (formPOST store p env).response.status = 400 ∧
      (formPOST store p env).completionCalls = [] ∧
      (formPOST store p env).sends = [] ∧
      (jsonPOST p env).response.status = 400 ∧
      (jsonPOST p env).completionCalls = [] ∧
      (jsonPOST p env).sends = []) ∧
    (∀ f, p.From = some f → strStartsWith f "whatsapp:" = false →
      (formPOST store p env).response.status = 400 ∧
      (formPOST store p env).completionCalls = [] ∧
      (formPOST store p env).sends = []) := by
  constructor
  · intro hb
    have hz : zodParse p = none := by
      rcases hb with hb | hb <;> cases hF : p.From <;> simp [zodParse, hb, hF]
    refine ⟨?_, ?_, ?_, ?_, ?_, ?_⟩ <;>
      rcases hb with hb | hb <;> cases hF : p.From <;>
        simp [formPOST, jsonPOST, hz, hb, hF]
  · intro f hf hpre
    have hz : zodParse p = none := by
      cases hB : p.Body <;> simp [zodParse, hB, hf, hpre]
    simp [formPOST, hz]

theorem c4_validation_failure_witness :
    ((formPOST [] ⟨none, some "whatsapp:+100"⟩ env0).response.status = 400 ∧
     (formPOST [] ⟨none, some "whatsapp:+100"⟩ env0).sends = []) ∧
    ((jsonPOST ⟨none, some "whatsapp:+100"⟩ env0).response.status = 400 ∧
     (jsonPOST ⟨none, some "whatsapp:+100"⟩ env0).sends = []) ∧
    ((formPOST [] ⟨some "Hello", some "+100"⟩ env0).response.status = 400 ∧
     (formPOST [] ⟨some "Hello", some "+100"⟩ env0).completionCalls = []) := by
  refine ⟨⟨?_, ?_⟩, ⟨?_, ?_⟩, ⟨?_, ?_⟩⟩
  · exact ((c4_validation_failure [] ⟨none, some "whatsapp:+100"⟩ env0).1 (Or.inl rfl)).1
  · exact ((c4_validation_failure [] ⟨none, some "whatsapp:+100"⟩ env0).1 (Or.inl rfl)).2.2.1
  · exact ((c4_validation_failure [] ⟨none, some "whatsapp:+100"⟩ env0).1 (Or.inl rfl)).2.2.2.1
  · exact ((c4_validation_failure [] ⟨none, some "whatsapp:+100"⟩ env0).1 (Or.inl rfl)).2.2.2.2.2
  · exact ((c4_validation_failure [] ⟨some "Hello", some "+100"⟩ env0).2 "+100" rfl (by decide)).1
  · exact ((c4_validation_failure [] ⟨some "Hello", some "+100"⟩ env0).2 "+100" rfl (by decide)).2.1

/-- C5: in the context-tracking variant, for every validated request (over any
current store contents, hence after any number of prior cycles), the single
message list sent to the completion provider is exactly the last at-most-6
messages, in stored order, of the context after the current user message was
appended; it has at most 6 elements and its final element is the user message
`{role: user, content: Body}` of the current request. -/
theorem c5_completion_window (store : ContextStore) (p : Payload) (env : Env)
    (v : ValidatedData) (hv : zodParse p = some v) :
    (formPOST store p env).completionCalls
      = [takeLast 6 ((contextBase store v.From env.now).messages
          ++ [Message.mk Role.user v.Body])] ∧
    (takeLast 6 ((contextBase store v.From env.now).messages
          ++ [Message.mk Role.user v.Body])).length ≤ 6 ∧
    (takeLast 6 ((contextBase store v.From env.now).messages
          ++ [Message.mk Role.user v.Body])).getLast?
      = some (Message.mk Role.user v.Body) := by
  refine ⟨?_, takeLast_length_le 6 _, takeLast_concat_getLast 6 (by omega) _ _⟩
  cases hps : env.primarySend <;> simp [formPOST, hv, hps]

theorem c5_completion_window_witness :
    (formPOST [] ⟨some "Hello", some "whatsapp:+100"⟩ env0).completionCalls
      = [takeLast 6 ((contextBase [] "whatsapp:+100" env0.now).messages
          ++ [Message.mk Role.user "Hello"])] ∧
    (takeLast 6 ((contextBase [] "whatsapp:+100" env0.now).messages
          ++ [Message.mk Role.user "Hello"])).length ≤ 6 ∧
    (takeLast 6 ((contextBase [] "whatsapp:+100" env0.now).messages
          ++ [Message.mk Role.user "Hello"])).getLast?
      = some (Message.mk Role.user "Hello") :=
  c5_completion_window [] ⟨some "Hello", some "whatsapp:+100"⟩ env0
    ⟨"Hello", "whatsapp:+100"⟩ (by decide)

/-- C6: for a fresh sender key (no context stored under `From`), one successful
request cycle stores under that key a context with exactly three messages in
order — the system message, the user message with the inbound `Body`, and the
assistant message whose content equals the reply text — and that reply text is
exactly what the single messaging send delivers. -/
theorem c6_fresh_key_cycle (store : ContextStore) (p : Payload) (env : Env)
    (v : ValidatedData) (hv : zodParse p = some v)
    (hfresh : ContextStore.get store v.From = none)
    (hsend : env.primarySend = true) :
    ContextStore.get (formPOST store p env).store v.From =
      some { id := v.From,
             messages := [systemMessage, Message.mk Role.user v.Body,
                          Message.mk Role.assistant (aiReply env.completion)],
             createdAt := env.now } ∧
    (formPOST store p env).sends.map (·.body) = [aiReply env.completion] := by
  have h1 : contextBase store v.From env.now = freshContext v.From env.now := by
    simp [contextBase, hfresh]
  simp [formPOST, hv, hsend, h1, freshContext, ContextStore.get_set_self]

theorem c6_fresh_key_cycle_witness :
    ContextStore.get
        (formPOST [] ⟨some "Hello", some "whatsapp:+100"⟩ env0).store "whatsapp:+100" =
      some { id := "whatsapp:+100",
             messages := [systemMessage, Message.mk Role.user "Hello",
                          Message.mk Role.assistant (aiReply env0.completion)],
             createdAt := env0.now } ∧
    (formPOST [] ⟨some "Hello", some "whatsapp:+100"⟩ env0).sends.map (·.body)
      = [aiReply env0.completion] :=
  c6_fresh_key_cycle [] ⟨some "Hello", some "whatsapp:+100"⟩ env0
    ⟨"Hello", "whatsapp:+100"⟩ (by decide) rfl rfl

/-- C7: a freshly created context has exactly one message, the system message;
and the store invariant — every stored context's message list has the system
message as its first element and contains exactly one system entry — is
preserved by every request cycle of the context-tracking handler (the cycle
only ever appends one `user` and one `assistant` entry after the existing
messages). -/
theorem c7_system_message_invariant (k : String) (t : Nat) (store : ContextStore)
    (p : Payload) (env : Env) (hinv : storeInv store) :
    (freshContext k t).messages = [systemMessage] ∧
    storeInv (formPOST store p env).store := by
  refine ⟨rfl, ?_⟩
  cases hz : zodParse p with
  | none => simpa [formPOST, hz] using hinv
  | some v =>
    have hbase : (contextBase store v.From env.now).messages.head? = some systemMessage ∧
        ((contextBase store v.From env.now).messages.filter isSystem).length = 1 := by
      cases hget : ContextStore.get store v.From with
      | none => simp [contextBase, hget, freshContext, isSystem, systemMessage]
      | some c => simpa [contextBase, hget] using ContextStore.get_mem_inv hinv hget
    have hgood : ∀ ai : String,
        ((contextBase store v.From env.now).messages
            ++ [Message.mk Role.user v.Body, Message.mk Role.assistant ai]).head?
          = some systemMessage ∧
        (((contextBase store v.From env.now).messages
            ++ [Message.mk Role.user v.Body, Message.mk Role.assistant ai]).filter
              isSystem).length = 1 := by
      intro ai
      obtain ⟨h1, h2⟩ := hbase
      constructor
      · rcases hml : (contextBase store v.From env.now).messages with _ | ⟨m, rest⟩
        · rw [hml] at h1; simp at h1
        · rw [hml] at h1; simpa using h1
      · simp [List.filter_append, h2, isSystem]
    cases hps : env.primarySend <;>
    · simp only [formPOST, hz, hps, Bool.false_eq_true, if_false, if_true]
      exact ContextStore.set_inv hinv (by simpa using hgood (aiReply env.completion))

theorem c7_system_message_invariant_witness :
    (freshContext "whatsapp:+100" 0).messages = [systemMessage] ∧
    storeInv (formPOST [] ⟨some "Hello", some "whatsapp:+100"⟩ env0).store :=
  c7_system_message_invariant "whatsapp:+100" 0 [] ⟨some "Hello", some "whatsapp:+100"⟩
    env0 (by decide)

/-- C8: a 500 response of the context-tracking handler is not atomic with
respect to the context store: for every validated request whose primary
messaging send throws, the handler returns 500 and the context stored under
the sender's key nevertheless already contains the `user` and `assistant`
messages appended during the failed cycle (the `contextStore.set` precedes the
send and is not rolled back). -/
theorem c8_store_updated_on_500 (store : ContextStore) (p : Payload) (env : Env)
    (v : ValidatedData) (hv : zodParse p = some v)
    (hfail : env.primarySend = false) :
    (formPOST store p env).response.status = 500 ∧
    ContextStore.get (formPOST store p env).store v.From =
      some { contextBase store v.From env.now with
             messages := (contextBase store v.From env.now).messages
               ++ [Message.mk Role.user v.Body,
                   Message.mk Role.assistant (aiReply env.completion)] } := by
  simp [formPOST, hv, hfail, ContextStore.get_set_self]

theorem c8_store_updated_on_500_witness :
    (formPOST [] ⟨some "Hello", some "whatsapp:+100"⟩ envFail).response.status = 500 ∧
    ContextStore.get (formPOST [] ⟨some "Hello", some "whatsapp:+100"⟩ envFail).store
        "whatsapp:+100" =
      some { contextBase [] "whatsapp:+100" envFail.now with
             messages := (contextBase [] "whatsapp:+100" envFail.now).messages
               ++ [Message.mk Role.user "Hello",
                   Message.mk Role.assistant (aiReply envFail.completion)] } :=
  c8_store_updated_on_500 [] ⟨some "Hello", some "whatsapp:+100"⟩ envFail
    ⟨"Hello", "whatsapp:+100"⟩ (by decide) rfl

/-- C9 counterexample: for the inbound sender `From = "whatsapp:+1234567890"`
(a valid payload) whose primary send throws, the apology message IS addressed
to the inbound sender — its destination coincides with `From` — refuting
"never to the inbound sender, for every request regardless of its From
value". -/
theorem c9_counterexample :
    ((formPOST [] ⟨some "Hello", some "whatsapp:+1234567890"⟩ envFail).sends.getLast?).map
        (·.to_)
      = (⟨some "Hello", some "whatsapp:+1234567890"⟩ : Payload).From := by
  decide

/-- C9 (amended): for every validated request whose primary send throws, the
apology send (the last send attempted) is exactly `apologyCall env`, whose
destination is the fixed string `"whatsapp:+1234567890"` independent of the
inbound `From`; it therefore differs from the inbound sender exactly when
`From ≠ "whatsapp:+1234567890"`. -/
theorem c9_apology_fixed_destination (store : ContextStore) (p : Payload)
    (env : Env) (v : ValidatedData) (hv : zodParse p = some v)
    (hfail : env.primarySend = false) :
    (formPOST store p env).sends.getLast? = some (apologyCall env) ∧
    (apologyCall env).to_ = "whatsapp:+1234567890" := by
  simp [formPOST, hv, hfail, apologyCall]

theorem c9_apology_fixed_destination_witness :
    (formPOST [] ⟨some "Hello", some "whatsapp:+100"⟩ envFail).sends.getLast?
      = some (apologyCall envFail) ∧
    (apologyCall envFail).to_ = "whatsapp:+1234567890" :=
  c9_apology_fixed_destination [] ⟨some "Hello", some "whatsapp:+100"⟩ envFail
    ⟨"Hello", "whatsapp:+100"⟩ (by decide) rfl

/-- C10: frame property of one request cycle of the context-tracking handler:
for every validated request with sender key `From`, contexts stored under any
other key are unchanged, and a context already stored under `From` keeps its
`id` and `createdAt` — only its message list grows, by exactly the `user` and
`assistant` messages of this cycle. -/
theorem c10_frame (store : ContextStore) (p : Payload) (env : Env)
    (v : ValidatedData) (hv : zodParse p = some v) :
    (∀ k, k ≠ v.From →
      ContextStore.get (formPOST store p env).store k = ContextStore.get store k) ∧
    (∀ ctx, ContextStore.get store v.From = some ctx →
      ContextStore.get (formPOST store p env).store v.From =
        some { id := ctx.id, createdAt := ctx.createdAt,
               messages := ctx.messages ++ [Message.mk Role.user v.Body,
                 Message.mk Role.assistant (aiReply env.completion)] }) := by
  constructor
  · intro k hk
    cases hps : env.primarySend <;>
      simp [formPOST, hv, hps, ContextStore.get_set_ne _ _ _ _ hk]
  · intro ctx hctx
    have hbase : contextBase store v.From env.now = ctx := by
      simp [contextBase, hctx]
    cases hps : env.primarySend <;>
      simp [formPOST, hv, hps, hbase, ContextStore.get_set_self]

theorem c10_frame_witness :
    (ContextStore.get
        (formPOST [("whatsapp:+100", freshContext "whatsapp:+100" 7)]
          ⟨some "Hello", some "whatsapp:+100"⟩ env0).store "whatsapp:+200"
      = ContextStore.get [("whatsapp:+100", freshContext "whatsapp:+100" 7)]
          "whatsapp:+200") ∧
    (ContextStore.get
        (formPOST [("whatsapp:+100", freshContext "whatsapp:+100" 7)]
          ⟨some "Hello", some "whatsapp:+100"⟩ env0).store "whatsapp:+100"
      = some { id := "whatsapp:+100", createdAt := 7,
               messages := (freshContext "whatsapp:+100" 7).messages
                 ++ [Message.mk Role.user "Hello",
                     Message.mk Role.assistant (aiReply env0.completion)] }) := by
  refine ⟨?_, ?_⟩
  · exact (c10_frame [("whatsapp:+100", freshContext "whatsapp:+100" 7)]
      ⟨some "Hello", some "whatsapp:+100"⟩ env0 ⟨"Hello", "whatsapp:+100"⟩
      (by decide)).1 "whatsapp:+200" (by decide)
  · exact (c10_frame [("whatsapp:+100", freshContext "whatsapp:+100" 7)]
      ⟨some "Hello", some "whatsapp:+100"⟩ env0 ⟨"Hello", "whatsapp:+100"⟩
      (by decide)).2 (freshContext "whatsapp:+100" 7) rfl

